import Mathlib

/-!
Verification development for the `mtl-dts` repository (`src/model.py`).

The file shallowly embeds the model-construction code and the two custom
forward passes of `model.py`.  Tensors are modelled at shape level (the
claims under study are about shapes, wiring and raising behaviour, never
about numeric values).  Fallible Python operations return
`Except PyErr _`; a constructor body whose statements can raise is either
written in the `Except` monad statement by statement, or (for the three
constructors whose statement structure itself is under scrutiny) embedded
as data in a small statement language together with an interpreter.
-/

namespace MTL

/-- Python exception values that the modelled operations can raise. -/
inductive PyErr where
  | typeError (msg : String)
  | attributeError (attrName : String)
  | nameError (missing : String)
  | valueError (msg : String)
  | runtimeError (msg : String)
  | indexError (msg : String)
deriving DecidableEq, Repr

/-- True exactly when an `Except` computation ended in a raised error. -/
def isErr {ε α : Type} : Except ε α → Bool
  | .error _ => true
  | .ok _ => false

/-- A tensor, modelled by its shape only. -/
structure Tensor where
  shape : List Nat
deriving DecidableEq, Repr

/-- Number of elements of a tensor. -/
def Tensor.numel (t : Tensor) : Nat := t.shape.prod

/-- An `nn.Embedding` table: vocabulary size, vector size, padding index and
the weight matrix (row index, column index).  The initial weights are a
parameter, since PyTorch draws them randomly; `nn.Embedding` zeroes the row
at `padding_idx` on construction. -/
structure Embedding where
  num_embeddings : Nat
  embedding_dim : Nat
  padding_idx : Nat
  weight : Nat → Nat → Int

/-- `nn.Embedding(num_embeddings, embedding_dim, padding_idx=p)` with initial
weights `winit`: the row at the padding index is zeroed. -/
def nnEmbedding (num_embeddings embedding_dim padding_idx : Nat)
    (winit : Nat → Nat → Int) : Embedding :=
  ⟨num_embeddings, embedding_dim, padding_idx,
    fun i j => if i = padding_idx then 0 else winit i j⟩

/-- Embedding lookup `e(t)`: appends the vector dimension to the shape of
the index tensor. -/
def Embedding.call (e : Embedding) (t : Tensor) : Tensor :=
  ⟨t.shape ++ [e.embedding_dim]⟩

/-- The two recurrent unit types `model.py` can construct. -/
inductive RNNKind where
  | gru
  | lstm
deriving DecidableEq, Repr

/-- An `nn.GRU` / `nn.LSTM` module (configuration fields only). -/
structure RNNmod where
  kind : RNNKind
  input_size : Nat
  hidden_size : Nat
  num_layers : Nat
  bidirectional : Bool
deriving DecidableEq, Repr

/-- `nn.GRU(input_size, hidden_size, num_layers, bidirectional=b)`. -/
def nnGRU (input_size hidden_size num_layers : Nat) (bidirectional : Bool) : RNNmod :=
  ⟨.gru, input_size, hidden_size, num_layers, bidirectional⟩

/-- `nn.LSTM(input_size, hidden_size, num_layers, bidirectional=b)`. -/
def nnLSTM (input_size hidden_size num_layers : Nat) (bidirectional : Bool) : RNNmod :=
  ⟨.lstm, input_size, hidden_size, num_layers, bidirectional⟩

/-- An `nn.Linear` module. -/
structure Linear where
  in_features : Nat
  out_features : Nat
deriving DecidableEq, Repr

/-- `nn.Linear(in_features, out_features)` with integer arguments. -/
def nnLinear (in_features out_features : Nat) : Linear :=
  ⟨in_features, out_features⟩

/-- The three activation modules `model.py` selects between. -/
inductive ActKind where
  | relu
  | tanh
  | gelu
deriving DecidableEq, Repr

/-- The Python name of an activation, as matched by the `activation_type`
string comparisons of `model.py`. -/
def actName : ActKind → String
  | .relu => "relu"
  | .tanh => "tanh"
  | .gelu => "gelu"

/-- Message of the `TypeError` PyTorch raises when an activation module is
applied to `None`. -/
def actNoneMsg (k : ActKind) : String :=
  actName k ++ "(): argument input must be Tensor, not NoneType"

/-- Dynamic Python values flowing through the embedded code: `None`, an
integer, an activation module, a linear module, a tensor, or a 2-tuple. -/
inductive Value where
  | none
  | int (n : Nat)
  | act (k : ActKind)
  | linear (m : Linear)
  | tensor (t : Tensor)
  | pair (a b : Value)
deriving DecidableEq, Repr

/-!
A small statement language for the `__init__` bodies of `RESpecificRNN`,
`NERSpecificBiRNN` and `RESpecificBiRNN` (model.py lines 74-87, 167-190,
192-214).  These three bodies are kept as data because the claims under
study are about their statement structure (what gets called on what, and
what gets assigned where); the interpreter below gives them their Python
run-time semantics.
-/

/-- Expressions of the embedded constructor bodies. -/
inductive Expr where
  | constNone
  | localVar (x : String)
  | selfAttr (a : String)
  | actCtor (k : ActKind)
  | call (f arg : Expr)
  | linearCtor (in_features : Expr) (out_features : Nat)
deriving DecidableEq, Repr

/-- Statements of the embedded constructor bodies. -/
inductive Stmt where
  | assignLocal (x : String) (e : Expr)
  | assignAttr (a : String) (e : Expr)
  | ite (c : Bool) (thn els : Stmt)
  | seq (a b : Stmt)
  | skip
deriving DecidableEq, Repr

/-- The statement list a body executes: `seq` is flattened and each
`ite` is replaced by the branch its (already evaluated) condition selects. -/
def Stmt.flatten : Stmt → List Stmt
  | .skip => []
  | .seq a b => a.flatten ++ b.flatten
  | .ite c t e => if c then t.flatten else e.flatten
  | s => [s]

/-- A variable environment: names bound to values, most recent first. -/
abbrev Env := List (String × Value)

/-- Looks a name up in an environment. -/
def lookupEnv (env : Env) (x : String) : Option Value :=
  (env.find? (fun p => p.1 == x)).map (·.2)

/-- The state of a running `__init__`: local variables and the attributes
assigned to `self` so far. -/
structure PyState where
  locals : Env
  attrs : Env
deriving Repr

/-- Calling a value `f(arg)`.  An activation module applied to `None`
raises `TypeError` (the `torch.relu` / `torch.tanh` / `F.gelu` functions
of PyTorch require a `Tensor` argument); applying it to a tensor returns a tensor of
the same shape.  Non-callable values raise `TypeError`. -/
def applyCallable (f arg : Value) : Except PyErr Value :=
  match f with
  | .act k =>
    match arg with
    | .none => .error (.typeError (actNoneMsg k))
    | .tensor t => .ok (.tensor t)
    | _ => .error (.typeError (actName k ++ "(): argument input must be Tensor"))
  | _ => .error (.typeError "object is not callable")

/-- Expression evaluation.  Reading an attribute that was never assigned
raises `AttributeError` (as `nn.Module.__getattr__` does); `nn.Linear`
requires an integer `in_features` and otherwise raises the `TypeError` that
`torch.empty` produces on a non-integer size. -/
def evalExpr (s : PyState) : Expr → Except PyErr Value
  | .constNone => .ok .none
  | .localVar x =>
    match lookupEnv s.locals x with
    | some v => .ok v
    | Option.none => .error (.nameError x)
  | .selfAttr a =>
    match lookupEnv s.attrs a with
    | some v => .ok v
    | Option.none => .error (.attributeError a)
  | .actCtor k => .ok (.act k)
  | .call f arg => do applyCallable (← evalExpr s f) (← evalExpr s arg)
  | .linearCtor inF outF => do
    match ← evalExpr s inF with
    | .int n => .ok (.linear (nnLinear n outF))
    | _ => .error (.typeError "empty() received an invalid combination of arguments")

/-- Statement execution: a raised error aborts the body. -/
def execStmt (s : PyState) : Stmt → Except PyErr PyState
  | .skip => .ok s
  | .seq a b => do execStmt (← execStmt s a) b
  | .ite c t e => if c then execStmt s t else execStmt s e
  | .assignLocal x e => do .ok ⟨(x, ← evalExpr s e) :: s.locals, s.attrs⟩
  | .assignAttr a e => do .ok ⟨s.locals, (a, ← evalExpr s e) :: s.attrs⟩

/-- The `if activation_type == ... :` chain shared by the three embedded
bodies, assigning `<act>()(input_)` to the attribute `ffnn1` (model.py
lines 80-85, 183-188, 207-212); the chain has no `else`. -/
def activationChain (activation_type : String) (ffnn1 : String) : Stmt :=
  .ite (activation_type == "relu")
    (.assignAttr ffnn1 (.call (.actCtor .relu) (.localVar "input_")))
    (.ite (activation_type == "tanh")
      (.assignAttr ffnn1 (.call (.actCtor .tanh) (.localVar "input_")))
      (.ite (activation_type == "gelu")
        (.assignAttr ffnn1 (.call (.actCtor .gelu) (.localVar "input_")))
        .skip))

/-- Body of `RESpecificRNN.__init__` (model.py lines 74-87): `input_ = None`,
the activation chain into `FFNNr1`, then
`self.FFNNr2 = nn.Linear(self.FFNNr1, num_rel_types)`.  The parameters
`shared_layer_size`, `hidden_dim`, `dropout`, `num_layers` and
`recurrent_unit` are accepted and never used, as in the source. -/
def RESpecificRNN.body (shared_layer_size num_rel_types hidden_dim : Nat)
    (dropout : Rat) (num_layers : Nat) (activation_type recurrent_unit : String) : Stmt :=
  .seq (.assignLocal "input_" .constNone)
    (.seq (activationChain activation_type "FFNNr1")
      (.assignAttr "FFNNr2" (.linearCtor (.selfAttr "FFNNr1") num_rel_types)))

/-- Running `RESpecificRNN.__init__` on a fresh object. -/
def RESpecificRNN.init (shared_layer_size num_rel_types hidden_dim : Nat)
    (dropout : Rat) (num_layers : Nat) (activation_type recurrent_unit : String) :
    Except PyErr PyState :=
  execStmt ⟨[], []⟩
    (RESpecificRNN.body shared_layer_size num_rel_types hidden_dim dropout num_layers
      activation_type recurrent_unit)

/-- Body of `NERSpecificBiRNN.__init__` (model.py lines 167-190): same shape
as `RESpecificRNN.__init__` but over `FFNNe1` / `FFNNe2` and projecting to
`num_tag_types`. -/
def NERSpecificBiRNN.body (num_rel_types num_tag_types hidden_dim : Nat)
    (dropout : Rat) (num_layers : Nat) (activation_type recurrent_unit : String) : Stmt :=
  .seq (.assignLocal "input_" .constNone)
    (.seq (activationChain activation_type "FFNNe1")
      (.assignAttr "FFNNe2" (.linearCtor (.selfAttr "FFNNe1") num_tag_types)))

/-- Running `NERSpecificBiRNN.__init__` on a fresh object. -/
def NERSpecificBiRNN.init (num_rel_types num_tag_types hidden_dim : Nat)
    (dropout : Rat) (num_layers : Nat) (activation_type recurrent_unit : String) :
    Except PyErr PyState :=
  execStmt ⟨[], []⟩
    (NERSpecificBiRNN.body num_rel_types num_tag_types hidden_dim dropout num_layers
      activation_type recurrent_unit)

/-- Body of `RESpecificBiRNN.__init__` (model.py lines 192-214). -/
def RESpecificBiRNN.body (num_rel_types hidden_dim : Nat)
    (dropout : Rat) (num_layers : Nat) (activation_type recurrent_unit : String) : Stmt :=
  .seq (.assignLocal "input_" .constNone)
    (.seq (activationChain activation_type "FFNNr1")
      (.assignAttr "FFNNr2" (.linearCtor (.selfAttr "FFNNr1") num_rel_types)))

/-- Running `RESpecificBiRNN.__init__` on a fresh object. -/
def RESpecificBiRNN.init (num_rel_types hidden_dim : Nat)
    (dropout : Rat) (num_layers : Nat) (activation_type recurrent_unit : String) :
    Except PyErr PyState :=
  execStmt ⟨[], []⟩
    (RESpecificBiRNN.body num_rel_types hidden_dim dropout num_layers
      activation_type recurrent_unit)

/-- A constructed `CharRNN` object (model.py lines 89-99). -/
structure CharRNNmod where
  cemb : Embedding
  birnn : RNNmod

/-- `CharRNN.__init__`: stores `cemb` and builds a bidirectional GRU (when
`recurrent_unit == "gru"`) or LSTM over `cemb.embedding_dim` inputs and
hidden units. -/
def CharRNN.init (cemb : Embedding) (num_layers : Nat) (recurrent_unit : String) :
    CharRNNmod :=
  ⟨cemb,
    if recurrent_unit == "gru" then
      nnGRU cemb.embedding_dim cemb.embedding_dim num_layers true
    else
      nnLSTM cemb.embedding_dim cemb.embedding_dim num_layers true⟩

/-- A constructed `SharedRNN` object (model.py lines 38-52). -/
structure SharedRNNmod where
  PAD_ind : Nat
  wemb : Embedding
  cemb : Embedding
  charRNN : CharRNNmod
  wordRNN : RNNmod

/-- `SharedRNN.__init__` (model.py lines 39-52), written statement by
statement; `shared_layer_size` and `dropout` are accepted and unused as in
the source.  `winit` and `cinit` are the random initial weights of the two
embedding tables. -/
def SharedRNN.init (num_word_types shared_layer_size num_char_types word_dim
    char_dim hidden_dim : Nat) (dropout : Rat) (num_layers : Nat)
    (recurrent_unit : String) (winit cinit : Nat → Nat → Int) : SharedRNNmod :=
  let PAD_ind := 0
  let wemb := nnEmbedding num_word_types word_dim PAD_ind winit
  let cemb := nnEmbedding num_char_types char_dim PAD_ind cinit
  let input_dim := word_dim + 2 * char_dim
  let charRNN := CharRNN.init cemb 1 recurrent_unit
  let wordRNN :=
    if recurrent_unit == "gru" then nnGRU input_dim hidden_dim num_layers true
    else nnLSTM input_dim hidden_dim num_layers true
  ⟨PAD_ind, wemb, cemb, charRNN, wordRNN⟩

/-- A constructed `NERSpecificRNN` object (model.py lines 54-71).  The
activation attribute is `Option`-valued because the `if` chain of the
source has no `else`: an unsupported `activation_type` leaves `FFNNe1`
unassigned. -/
structure NERSpecificRNNmod where
  birnn : RNNmod
  FFNNe1 : Option ActKind
  FFNNe2 : Linear

/-- `NERSpecificRNN.__init__` (model.py lines 55-71).  No statement of this
body can raise, so the result is always `Except.ok`. -/
def NERSpecificRNN.init (shared_layer_size num_tag_types hidden_dim : Nat)
    (dropout : Rat) (num_layers : Nat) (activation_type recurrent_unit : String) :
    Except PyErr NERSpecificRNNmod :=
  let birnn :=
    if recurrent_unit == "gru" then nnGRU shared_layer_size hidden_dim num_layers true
    else nnLSTM shared_layer_size hidden_dim num_layers true
  let FFNNe1 : Option ActKind :=
    if activation_type == "relu" then some .relu
    else if activation_type == "tanh" then some .tanh
    else if activation_type == "gelu" then some .gelu
    else none
  .ok ⟨birnn, FFNNe1, nnLinear hidden_dim num_tag_types⟩

/-- The loss module stored by `MTLArchitecture`. -/
inductive LossKind where
  | crossEntropyLoss
deriving DecidableEq, Repr

/-- A constructed `MTLArchitecture` object (model.py lines 7-36). -/
structure MTLArchitectureMod where
  shared_layers : SharedRNNmod
  ner_layers : NERSpecificRNNmod
  re_layers : PyState
  loss : LossKind

/-- `MTLArchitecture.__init__` (model.py lines 21-36): builds the shared
encoder, the NER head and the RE head in that order, then the loss. -/
def MTLArchitecture.init (num_word_types shared_layer_size num_char_types
    word_dim char_dim hidden_dim : Nat) (dropout : Rat)
    (num_layers num_tag_types num_rel_types : Nat)
    (activation_type recurrent_unit : String)
    (winit cinit : Nat → Nat → Int) : Except PyErr MTLArchitectureMod := do
  let shared_layers := SharedRNN.init num_word_types shared_layer_size num_char_types
    word_dim char_dim hidden_dim dropout num_layers recurrent_unit winit cinit
  let ner_layers ← NERSpecificRNN.init shared_layer_size num_tag_types hidden_dim
    dropout num_layers activation_type recurrent_unit
  let re_layers ← RESpecificRNN.init shared_layer_size num_rel_types hidden_dim
    dropout num_layers activation_type recurrent_unit
  .ok ⟨shared_layers, ner_layers, re_layers, .crossEntropyLoss⟩

/-!
Shape-level semantics of the tensor operations used by `CharRNN.forward`
(model.py lines 101-117) and `SharedBiRNN.forward` (lines 155-165).
-/

/-- A packed sequence, as produced by `pack_padded_sequence`: the per-item
lengths and the feature dimension. -/
structure PackedSequence where
  lengths : List Nat
  featDim : Nat
deriving DecidableEq, Repr

/-- True when a length list is sorted in decreasing order (only checked by
`pack_padded_sequence` when `enforce_sorted` is true). -/
def sortedDesc : List Nat → Bool
  | [] => true
  | [_] => true
  | a :: b :: t => (decide (b ≤ a)) && sortedDesc (b :: t)

/-- `torch.nn.utils.rnn.pack_padded_sequence(input, lengths, batch_first,
enforce_sorted)`: requires a 3-dimensional input, a length per batch item,
every length between 1 and the time dimension, and a nonempty batch;
sortedness is only required when `enforce_sorted` is true. -/
def pack_padded_sequence (input : Tensor) (lengths : List Nat)
    (batch_first enforce_sorted : Bool) : Except PyErr PackedSequence :=
  match input.shape with
  | [d0, d1, d2] =>
    if lengths.length = (if batch_first then d0 else d1) then
      if lengths.all (fun x => decide (1 ≤ x) && decide (x ≤ (if batch_first then d1 else d0))) then
        if lengths.length = 0 then
          .error (.runtimeError "cannot pack empty tensors")
        else if enforce_sorted && !(sortedDesc lengths) then
          .error (.runtimeError "lengths array must be sorted in decreasing order")
        else .ok ⟨lengths, d2⟩
      else .error (.runtimeError "length of all samples has to be positive and at most the time dimension")
    else .error (.valueError "lengths array has incorrect size")
  | _ => .error (.runtimeError "input must have 3 dimensions")

/-- Running a recurrent module on a packed sequence.  The Python call
returns a 2-tuple whose second component depends on the unit type: a GRU
yields the hidden-state tensor `h_n` of shape
`(num_layers * num_directions, B, hidden_size)`, an LSTM yields the pair
`(h_n, c_n)` of two such tensors.  The feature dimension must match the
`input_size` of the module. -/
def RNNmod.callPacked (self : RNNmod) (input : PackedSequence) :
    Except PyErr (PackedSequence × Value) :=
  if input.featDim = self.input_size then
    let B := input.lengths.length
    let dirs := if self.bidirectional then 2 else 1
    let h_n : Tensor := ⟨[self.num_layers * dirs, B, self.hidden_size]⟩
    let c_n : Tensor := h_n
    let output : PackedSequence := ⟨input.lengths, self.hidden_size * dirs⟩
    match self.kind with
    | .gru => .ok (output, .tensor h_n)
    | .lstm => .ok (output, .pair (.tensor h_n) (.tensor c_n))
  else .error (.runtimeError "input has inconsistent input_size")

/-- Python 2-tuple unpacking `a, b = v`.  A pair unpacks into its
components; a tensor is iterated along its first dimension, so it unpacks
into exactly two slices when that dimension is 2 and raises `ValueError`
otherwise (`TypeError` for a 0-dimensional tensor). -/
def unpackPair : Value → Except PyErr (Value × Value)
  | .pair a b => .ok (a, b)
  | .tensor t =>
    match t.shape with
    | [] => .error (.typeError "iteration over a 0-d tensor")
    | d0 :: rest =>
      if d0 = 2 then .ok (.tensor ⟨rest⟩, .tensor ⟨rest⟩)
      else .error (.valueError "values to unpack do not match")
  | _ => .error (.typeError "cannot unpack non-iterable object")

/-- Coercion of a dynamic value to a tensor (method receivers such as
`final_h.view(...)` require one). -/
def asTensor : Value → Except PyErr Tensor
  | .tensor t => .ok t
  | _ => .error (.typeError "expected a Tensor")

/-- `t.view(dims)`.  A `some n` entry is the literal size `n`; the entry
`none` renders the `-1` of the source (the inferred dimension).  At most one
dimension may be inferred, and the element count must be preserved. -/
def Tensor.view (t : Tensor) (dims : List (Option Nat)) : Except PyErr Tensor :=
  if (dims.filter (fun d => d.isNone)).length = 0 then
    if t.numel = (dims.filterMap id).prod then .ok ⟨dims.filterMap id⟩
    else .error (.runtimeError "shape is invalid for input size")
  else if (dims.filter (fun d => d.isNone)).length = 1 then
    if 0 < (dims.filterMap id).prod ∧ (dims.filterMap id).prod ∣ t.numel then
      .ok ⟨dims.map (fun d => d.getD (t.numel / (dims.filterMap id).prod))⟩
    else .error (.runtimeError "shape is invalid for input size")
  else .error (.runtimeError "only one dimension can be inferred")

/-- Subscripting `t[i]` with a possibly negative index: selects along the
first dimension and drops it. -/
def Tensor.index (t : Tensor) (i : Int) : Except PyErr Tensor :=
  match t.shape with
  | [] => .error (.indexError "invalid index of a 0-dim tensor")
  | d0 :: rest =>
    let j := if i < 0 then (d0 : Int) + i else i
    if 0 ≤ j ∧ j < (d0 : Int) then .ok ⟨rest⟩
    else .error (.indexError "index out of range")

/-- `t.transpose(i, j)`: swaps two dimensions. -/
def Tensor.transpose (t : Tensor) (i j : Nat) : Except PyErr Tensor :=
  if h : i < t.shape.length ∧ j < t.shape.length then
    .ok ⟨(t.shape.set i (t.shape.get ⟨j, h.2⟩)).set j (t.shape.get ⟨i, h.1⟩)⟩
  else .error (.indexError "dimension out of range")

/-- `t.contiguous()`: identity at shape level. -/
def Tensor.contiguous (t : Tensor) : Tensor := t

/-- `CharRNN.forward` (model.py lines 101-117), line by line: embed the
padded character indices, pack them with the given lengths
(`batch_first=True`, `enforce_sorted=False`), run the recurrent layer and
destructure its result as `_, (final_h, _)`, reshape to
`(num_layers, 2, B, hidden_size)`, take the last layer with `[-1]`,
`transpose(0, 1)`, `contiguous()`, and flatten to `(B, -1)`. -/
def CharRNN.forward (self : CharRNNmod) (padded_chars : Tensor)
    (char_lengths : List Nat) : Except PyErr Tensor := do
  let B := char_lengths.length
  let packed ← pack_padded_sequence (self.cemb.call padded_chars) char_lengths true false
  let out ← self.birnn.callPacked packed
  let (final_h, _) ← unpackPair out.2
  let final_h ← asTensor final_h
  let final_h ← final_h.view
    [some self.birnn.num_layers, some 2, some B, some self.birnn.hidden_size]
  let final_h ← final_h.index (-1)
  let final_h ← final_h.transpose 0 1
  let cembs ← final_h.contiguous.view [some B, none]
  .ok cembs

/-!
The `SharedBiRNN` family (model.py lines 119-165).
-/

/-- `SharedBiRNN.CharDim` (model.py line 125). -/
def SharedBiRNN.CharDim : Nat := 32

/-- `SharedBiRNN.ELMODim` (model.py line 126). -/
def SharedBiRNN.ELMODim : Nat := 1024

/-- `SharedBiRNN.GloveDim` (model.py line 127). -/
def SharedBiRNN.GloveDim : Nat := 300

/-- The attributes `SharedBiRNN.__init__` assigns before it raises:
`Pad_ind`, `wemb` and `cemb` (model.py lines 135-140). -/
structure SharedBiRNNmod where
  Pad_ind : Nat
  wemb : Embedding
  cemb : Embedding

/-- `SharedBiRNN.__init__` (model.py lines 128-153).  After assigning
`Pad_ind`, `wemb` and `cemb`, line 141 evaluates
`CharBiRNN(self.cemb, 1, recurrent_unit)`; the name `CharBiRNN` is defined
nowhere in `model.py` nor among its imports, so the lookup raises
`NameError` and the construction of `word_birnn` (lines 143-153) is never
reached.  The result is the partially initialised object paired with the
raised error. -/
def SharedBiRNN.init (num_word_types num_char_types num_layers : Nat)
    (recurrent_unit : String) (winit cinit : Nat → Nat → Int) :
    SharedBiRNNmod × PyErr :=
  let Pad_ind := 0
  let word_dim := SharedBiRNN.ELMODim + SharedBiRNN.GloveDim + 2 * SharedBiRNN.CharDim
  let wemb := nnEmbedding num_word_types word_dim Pad_ind winit
  let cemb := nnEmbedding num_char_types SharedBiRNN.CharDim Pad_ind cinit
  (⟨Pad_ind, wemb, cemb⟩, PyErr.nameError "CharBiRNN")

/-- The recurrent-layer selector of `SharedBiRNN.__init__` (model.py lines
144-153), embedded on its own because the statement is unreachable at run
time (the `NameError` of line 141 precedes it): a bidirectional GRU or
LSTM with `input_size` and `hidden_size` both equal to `word_dim`. -/
def SharedBiRNN.word_birnn_sel (word_dim num_layers : Nat)
    (recurrent_unit : String) : RNNmod :=
  if recurrent_unit == "gru" then nnGRU word_dim word_dim num_layers true
  else nnLSTM word_dim word_dim num_layers true

/-- A batch of `B` sentences of (padded) length `L`, the input of
`SharedBiRNN.forward`. -/
structure Batch where
  B : Nat
  L : Nat
deriving DecidableEq, Repr

/-- Modelled from the spec: `load_elmo_weights` is imported from
`utils.py`, which the repository references but does not contain; per the
spec it yields the ELMo contextual embeddings of the batch, one
`ELMODim`-sized vector per token. -/
def load_elmo_weights (X : Batch) : Tensor :=
  ⟨[X.B, X.L, SharedBiRNN.ELMODim]⟩

/-- Modelled from the spec: `load_glove_embeddings` is imported from
`utils.py`, which the repository references but does not contain; per the
spec it yields the GloVe embeddings of the batch, one `GloveDim`-sized
vector per token. -/
def load_glove_embeddings (X : Batch) : Tensor :=
  ⟨[X.B, X.L, SharedBiRNN.GloveDim]⟩

/-- Shape of `torch.cat([t1, t2], dim)`: all dimensions other than `dim`
must agree, and `dim` is summed. -/
def catShape (dim : Nat) : List Nat → List Nat → Option (List Nat)
  | d1 :: r1, d2 :: r2 =>
    match dim with
    | 0 => if r1 = r2 then some ((d1 + d2) :: r1) else none
    | n + 1 => if d1 = d2 then (catShape n r1 r2).map (d1 :: ·) else none
  | _, _ => none

/-- `torch.cat([t1, t2], dim=dim)`. -/
def torch_cat2 (t1 t2 : Tensor) (dim : Nat) : Except PyErr Tensor :=
  match catShape dim t1.shape t2.shape with
  | some s => .ok ⟨s⟩
  | none => .error (.runtimeError "tensors must have same shape except in the cat dimension")

/-- The `word_embeddings` assignment of `SharedBiRNN.forward` (model.py
line 165): the ELMo and GloVe embeddings of the batch concatenated along
dimension 2. -/
def SharedBiRNN.word_embeddings (X : Batch) : Except PyErr Tensor :=
  torch_cat2 (load_elmo_weights X) (load_glove_embeddings X) 2

/-- `SharedBiRNN.forward` (model.py lines 155-165): loads the ELMo and
GloVe embeddings of `X`, concatenates them along dimension 2, and ends
without a `return` statement, so the call returns `None`.  No attribute of
`self` is read. -/
def SharedBiRNN.forward (self : SharedBiRNNmod) (X : Batch) : Except PyErr Value := do
  let _word_embeddings ← SharedBiRNN.word_embeddings X
  .ok Value.none

/-!
Helper lemmas shared by the claim theorems.
-/

/-- The word embeddings computed by `SharedBiRNN.forward`: concatenating
the `(B, L, 1024)` ELMo tensor and the `(B, L, 300)` GloVe tensor along
dimension 2 gives a `(B, L, 1324)` tensor. -/
lemma word_embeddings_eq (X : Batch) :
    SharedBiRNN.word_embeddings X = .ok ⟨[X.B, X.L, 1324]⟩ := by
  simp [SharedBiRNN.word_embeddings, torch_cat2, catShape,
    load_elmo_weights, load_glove_embeddings, SharedBiRNN.ELMODim, SharedBiRNN.GloveDim]

/-- `pack_padded_sequence` succeeds on a well-formed batch-first input with
`enforce_sorted=False`. -/
lemma pack_ok {B T d : Nat} {lengths : List Nat}
    (hlen : lengths.length = B) (hne : lengths ≠ [])
    (hall : ∀ x ∈ lengths, 1 ≤ x ∧ x ≤ T) :
    pack_padded_sequence ⟨[B, T, d]⟩ lengths true false = .ok ⟨lengths, d⟩ := by
  have hall' : lengths.all (fun x => decide (1 ≤ x) && decide (x ≤ T)) = true := by
    rw [List.all_eq_true]
    intro x hx
    simp only [Bool.and_eq_true, decide_eq_true_eq]
    exact hall x hx
  have hB : ¬ B = 0 := by
    rw [← hlen]
    simpa [List.length_eq_zero] using hne
  simp [pack_padded_sequence, hlen, hall', hB]

lemma except_bind_ok {e a b : Type} (x : a) (f : a → Except e b) :
    (Except.ok x >>= f) = f x := rfl

lemma except_bind_err {e a b : Type} (err : e) (f : a → Except e b) :
    ((Except.error err : Except e a) >>= f) = .error err := rfl

lemma callPacked_lstm (inp hid nl : Nat) (p : PackedSequence) (h : p.featDim = inp) :
    (nnLSTM inp hid nl true).callPacked p
      = .ok (⟨p.lengths, hid * 2⟩,
          .pair (.tensor ⟨[nl * 2, p.lengths.length, hid]⟩)
                (.tensor ⟨[nl * 2, p.lengths.length, hid]⟩)) := by
  simp [RNNmod.callPacked, nnLSTM, h]

lemma callPacked_gru (inp hid nl : Nat) (p : PackedSequence) (h : p.featDim = inp) :
    (nnGRU inp hid nl true).callPacked p
      = .ok (⟨p.lengths, hid * 2⟩, .tensor ⟨[nl * 2, p.lengths.length, hid]⟩) := by
  simp [RNNmod.callPacked, nnGRU, h]

lemma view_to_layers (nl B d : Nat) :
    Tensor.view ⟨[nl * 2, B, d]⟩ [some nl, some 2, some B, some d] = .ok ⟨[nl, 2, B, d]⟩ := by
  have hprod : ([nl * 2, B, d] : List Nat).prod = ([nl, 2, B, d] : List Nat).prod := by
    simp [List.prod_cons]
    ring
  simp [Tensor.view, Tensor.numel, hprod]

lemma index_neg_one (a : Nat) (rest : List Nat) (h : 0 < a) :
    Tensor.index ⟨a :: rest⟩ (-1) = .ok ⟨rest⟩ := by
  simp only [Tensor.index]
  rw [if_pos]
  refine ⟨?_, ?_⟩
  · simp
    omega
  · simp

lemma view_flatten2 (B c : Nat) (hB : 0 < B) :
    Tensor.view ⟨[B, 2, c]⟩ [some B, none] = .ok ⟨[B, 2 * c]⟩ := by
  simp [Tensor.view, Tensor.numel, hB]

lemma view_one_layer_err (B d : Nat) (hB : 0 < B) (hd : 0 < d) :
    Tensor.view ⟨[B, d]⟩ [some 1, some 2, some B, some d]
      = .error (.runtimeError "shape is invalid for input size") := by
  have hpos : 0 < B * d := Nat.mul_pos hB hd
  have hne : ¬ (Tensor.numel ⟨[B, d]⟩
      = (([some 1, some 2, some B, some d] : List (Option Nat)).filterMap id).prod) := by
    simp [Tensor.numel]
    intro heq
    linarith
  unfold Tensor.view
  rw [if_pos (by rfl), if_neg hne]

lemma pack_ok_inv {input : Tensor} {lengths : List Nat} {bf es : Bool} {p : PackedSequence}
    (h : pack_padded_sequence input lengths bf es = .ok p) :
    ∃ d0 d1 d2, input.shape = [d0, d1, d2] ∧ p.lengths = lengths ∧ p.featDim = d2
      ∧ 0 < lengths.length := by
  unfold pack_padded_sequence at h
  split at h
  · rename_i d0 d1 d2 heq
    split_ifs at h
    all_goals
      cases h
    all_goals
      exact ⟨d0, d1, d2, heq, rfl, rfl, Nat.pos_of_ne_zero (by assumption)⟩
  · cases h


/-- C1: the contract stated by the spec is that the network constructs without
raising; on the code it does not.  At a concrete configuration,
`MTLArchitecture.__init__` raises a `TypeError` under each of the three
supported activation types, because the RE head applies the activation
module to `None`. -/
theorem mtl_construction_raises :
    MTLArchitecture.init 10 8 12 4 3 5 0 1 7 9 "relu" "gru"
        (fun _ _ => 1) (fun _ _ => 1)
      = .error (.typeError "relu(): argument input must be Tensor, not NoneType")
    ∧ MTLArchitecture.init 10 8 12 4 3 5 0 1 7 9 "tanh" "gru"
        (fun _ _ => 1) (fun _ _ => 1)
      = .error (.typeError "tanh(): argument input must be Tensor, not NoneType")
    ∧ MTLArchitecture.init 10 8 12 4 3 5 0 1 7 9 "gelu" "lstm"
        (fun _ _ => 1) (fun _ _ => 1)
      = .error (.typeError "gelu(): argument input must be Tensor, not NoneType") :=
  ⟨rfl, rfl, rfl⟩

/-- C2: for every supported activation type, the executed statement path of
the constructors of `RESpecificRNN`, `NERSpecificBiRNN` and
`RESpecificBiRNN` binds `input_` to `None`, assigns the activation module
applied to `input_` (the result of the call, not the module) to the `FFNN`
attribute, and then constructs `nn.Linear` with that stored attribute in
place of an integer input dimension; running each body raises the
`TypeError` of the activation call on `None`. -/
theorem ffnn_heads_call_activation_on_none
    (shared_layer_size num_rel_types num_tag_types hidden_dim : Nat)
    (dropout : Rat) (num_layers : Nat) (recurrent_unit : String) (k : ActKind) :
    ((RESpecificRNN.body shared_layer_size num_rel_types hidden_dim dropout
        num_layers (actName k) recurrent_unit).flatten =
      [Stmt.assignLocal "input_" Expr.constNone,
       Stmt.assignAttr "FFNNr1" (Expr.call (Expr.actCtor k) (Expr.localVar "input_")),
       Stmt.assignAttr "FFNNr2" (Expr.linearCtor (Expr.selfAttr "FFNNr1") num_rel_types)]
    ∧ RESpecificRNN.init shared_layer_size num_rel_types hidden_dim dropout
        num_layers (actName k) recurrent_unit = .error (.typeError (actNoneMsg k)))
    ∧ ((NERSpecificBiRNN.body num_rel_types num_tag_types hidden_dim dropout
        num_layers (actName k) recurrent_unit).flatten =
      [Stmt.assignLocal "input_" Expr.constNone,
       Stmt.assignAttr "FFNNe1" (Expr.call (Expr.actCtor k) (Expr.localVar "input_")),
       Stmt.assignAttr "FFNNe2" (Expr.linearCtor (Expr.selfAttr "FFNNe1") num_tag_types)]
    ∧ NERSpecificBiRNN.init num_rel_types num_tag_types hidden_dim dropout
        num_layers (actName k) recurrent_unit = .error (.typeError (actNoneMsg k)))
    ∧ ((RESpecificBiRNN.body num_rel_types hidden_dim dropout
        num_layers (actName k) recurrent_unit).flatten =
      [Stmt.assignLocal "input_" Expr.constNone,
       Stmt.assignAttr "FFNNr1" (Expr.call (Expr.actCtor k) (Expr.localVar "input_")),
       Stmt.assignAttr "FFNNr2" (Expr.linearCtor (Expr.selfAttr "FFNNr1") num_rel_types)]
    ∧ RESpecificBiRNN.init num_rel_types hidden_dim dropout
        num_layers (actName k) recurrent_unit = .error (.typeError (actNoneMsg k))) := by
  cases k <;> exact ⟨⟨rfl, rfl⟩, ⟨rfl, rfl⟩, ⟨rfl, rfl⟩⟩

/-- C3: for every `activation_type` outside relu/tanh/gelu,
`NERSpecificRNN.__init__` completes without raising and leaves the
attribute `FFNNe1` unassigned (`none` in the embedding). -/
theorem ner_init_unsupported_activation_silent
    (shared_layer_size num_tag_types hidden_dim : Nat) (dropout : Rat)
    (num_layers : Nat) (activation_type recurrent_unit : String)
    (h : activation_type ∉ (["relu", "tanh", "gelu"] : List String)) :
    ∃ r, NERSpecificRNN.init shared_layer_size num_tag_types hidden_dim dropout
        num_layers activation_type recurrent_unit = .ok r ∧ r.FFNNe1 = none := by
  simp only [List.mem_cons, List.mem_singleton, not_or] at h
  obtain ⟨h1, h2, h3, -⟩ := h
  refine ⟨_, rfl, ?_⟩
  simp [NERSpecificRNN.init, beq_iff_eq, h1, h2, h3]

/-- Witness for C3 at the concrete unsupported activation name "swish". -/
theorem ner_init_unsupported_activation_silent_witness :
    ("swish" ∉ (["relu", "tanh", "gelu"] : List String))
    ∧ ∃ r, NERSpecificRNN.init 8 7 5 0 1 "swish" "gru" = .ok r ∧ r.FFNNe1 = none :=
  ⟨by decide, ner_init_unsupported_activation_silent 8 7 5 0 1 "swish" "gru" (by decide)⟩

/-- C4: `MTLArchitecture.__init__` is documented to compose the shared
encoder with the NER and RE heads.  At a concrete configuration the shared
encoder and the NER head are built with the claimed wiring (encoder over
`word_dim + 2 * char_dim`, NER head over `shared_layer_size` inputs
projecting to `num_tag_types`), but building the RE head raises, so the
composition never completes and `MTLArchitecture.__init__` raises. -/
theorem mtl_composition_broken :
    (SharedRNN.init 20 16 30 8 4 10 0 2 "lstm" (fun _ _ => 2) (fun _ _ => 3)).wordRNN
      = nnLSTM 16 10 2 true
    ∧ NERSpecificRNN.init 16 5 10 0 2 "relu" "lstm"
      = .ok ⟨nnLSTM 16 10 2 true, some ActKind.relu, nnLinear 10 5⟩
    ∧ isErr (RESpecificRNN.init 16 6 10 0 2 "relu" "lstm") = true
    ∧ MTLArchitecture.init 20 16 30 8 4 10 0 2 5 6 "relu" "lstm"
        (fun _ _ => 2) (fun _ _ => 3)
      = .error (.typeError "relu(): argument input must be Tensor, not NoneType") :=
  ⟨rfl, rfl, rfl, rfl⟩

/-- C6: word, character and contextual embeddings are combined by
concatenation before the shared encoder: the word-level RNN of `SharedRNN`
has input dimension `word_dim + 2 * char_dim`; the word dimension of
`SharedBiRNN` is `ELMODim + GloveDim + 2 * CharDim = 1388`; and its forward pass
concatenates the ELMo and GloVe embeddings of the input batch along
dimension 2. -/
theorem embeddings_combined_by_concatenation
    (num_word_types shared_layer_size num_char_types word_dim char_dim hidden_dim : Nat)
    (dropout : Rat) (num_layers : Nat) (recurrent_unit : String)
    (winit cinit : Nat → Nat → Int)
    (num_word_types2 num_char_types2 num_layers2 : Nat) (recurrent_unit2 : String)
    (winit2 cinit2 : Nat → Nat → Int) (X : Batch) :
    (SharedRNN.init num_word_types shared_layer_size num_char_types word_dim char_dim
        hidden_dim dropout num_layers recurrent_unit winit cinit).wordRNN.input_size
      = word_dim + 2 * char_dim
    ∧ (SharedBiRNN.init num_word_types2 num_char_types2 num_layers2 recurrent_unit2
        winit2 cinit2).1.wemb.embedding_dim
      = SharedBiRNN.ELMODim + SharedBiRNN.GloveDim + 2 * SharedBiRNN.CharDim
    ∧ (SharedBiRNN.init num_word_types2 num_char_types2 num_layers2 recurrent_unit2
        winit2 cinit2).1.wemb.embedding_dim = 1388
    ∧ SharedBiRNN.word_embeddings X
      = .ok ⟨[X.B, X.L, SharedBiRNN.ELMODim + SharedBiRNN.GloveDim]⟩ := by
  refine ⟨?_, rfl, rfl, ?_⟩
  · cases h : recurrent_unit == "gru" <;>
      simp [SharedRNN.init, nnGRU, nnLSTM, h]
  · rw [word_embeddings_eq]
    rfl

/-- C7: every recurrent layer the model code constructs is bidirectional,
and the recurrent-unit selector chooses between exactly two unit types: a
GRU when `recurrent_unit == "gru"` and an LSTM otherwise — in `SharedRNN`,
`CharRNN`, `NERSpecificRNN`, and in the selector of `SharedBiRNN`
(model.py lines 144-153, which the earlier `NameError` of that
constructor keeps unreachable at run time). -/
theorem recurrent_layers_bidirectional_two_kinds
    (num_word_types shared_layer_size num_char_types word_dim char_dim hidden_dim : Nat)
    (dropout : Rat) (num_layers num_tag_types : Nat)
    (activation_type recurrent_unit : String) (winit cinit : Nat → Nat → Int)
    (cemb : Embedding) (char_layers word_dim2 num_layers2 : Nat) :
    ((SharedRNN.init num_word_types shared_layer_size num_char_types word_dim char_dim
        hidden_dim dropout num_layers recurrent_unit winit cinit).wordRNN.bidirectional
        = true
      ∧ (SharedRNN.init num_word_types shared_layer_size num_char_types word_dim char_dim
        hidden_dim dropout num_layers recurrent_unit winit cinit).wordRNN.kind
        = (if recurrent_unit == "gru" then RNNKind.gru else RNNKind.lstm))
    ∧ ((SharedRNN.init num_word_types shared_layer_size num_char_types word_dim char_dim
        hidden_dim dropout num_layers recurrent_unit winit cinit).charRNN.birnn.bidirectional
        = true
      ∧ (SharedRNN.init num_word_types shared_layer_size num_char_types word_dim char_dim
        hidden_dim dropout num_layers recurrent_unit winit cinit).charRNN.birnn.kind
        = (if recurrent_unit == "gru" then RNNKind.gru else RNNKind.lstm))
    ∧ ((CharRNN.init cemb char_layers recurrent_unit).birnn.bidirectional = true
      ∧ (CharRNN.init cemb char_layers recurrent_unit).birnn.kind
        = (if recurrent_unit == "gru" then RNNKind.gru else RNNKind.lstm))
    ∧ (∃ r, NERSpecificRNN.init shared_layer_size num_tag_types hidden_dim dropout
          num_layers activation_type recurrent_unit = .ok r
        ∧ r.birnn.bidirectional = true
        ∧ r.birnn.kind = (if recurrent_unit == "gru" then RNNKind.gru else RNNKind.lstm))
    ∧ ((SharedBiRNN.word_birnn_sel word_dim2 num_layers2 recurrent_unit).bidirectional
        = true
      ∧ (SharedBiRNN.word_birnn_sel word_dim2 num_layers2 recurrent_unit).kind
        = (if recurrent_unit == "gru" then RNNKind.gru else RNNKind.lstm)) := by
  cases h : recurrent_unit == "gru" <;>
    refine ⟨⟨?_, ?_⟩, ⟨?_, ?_⟩, ⟨?_, ?_⟩, ⟨_, rfl, ?_, ?_⟩, ⟨?_, ?_⟩⟩ <;>
    simp [SharedRNN.init, CharRNN.init, NERSpecificRNN.init, SharedBiRNN.word_birnn_sel,
      nnGRU, nnLSTM, h]

/-- C9: `SharedBiRNN.forward` returns `None` for every input batch — it
concatenates the loaded ELMo and GloVe embeddings, has no return
statement, and reads nothing from `self`, so its result is the same for
every (even differently initialised) module. -/
theorem sharedBiRNN_forward_returns_none (m m2 : SharedBiRNNmod) (X : Batch) :
    SharedBiRNN.forward m X = .ok Value.none
    ∧ SharedBiRNN.forward m X = SharedBiRNN.forward m2 X := by
  constructor
  · unfold SharedBiRNN.forward
    rw [word_embeddings_eq]
    rfl
  · rfl

/-- C10: every embedding table the model constructs — the word and
character tables of `SharedRNN` (the latter shared with its `CharRNN`) and
of `SharedBiRNN` — takes its padding index from the `PAD_ind` / `Pad_ind`
attribute, which is 0, and its weight row 0 is the zero vector. -/
theorem embedding_tables_reserve_index_zero
    (num_word_types shared_layer_size num_char_types word_dim char_dim hidden_dim : Nat)
    (dropout : Rat) (num_layers : Nat) (recurrent_unit : String)
    (winit cinit : Nat → Nat → Int)
    (num_word_types2 num_char_types2 num_layers2 : Nat) (recurrent_unit2 : String)
    (winit2 cinit2 : Nat → Nat → Int) (j1 j2 j3 j4 : Nat) :
    (SharedRNN.init num_word_types shared_layer_size num_char_types word_dim char_dim
        hidden_dim dropout num_layers recurrent_unit winit cinit).PAD_ind = 0
    ∧ (SharedRNN.init num_word_types shared_layer_size num_char_types word_dim char_dim
        hidden_dim dropout num_layers recurrent_unit winit cinit).wemb.padding_idx = 0
    ∧ (SharedRNN.init num_word_types shared_layer_size num_char_types word_dim char_dim
        hidden_dim dropout num_layers recurrent_unit winit cinit).cemb.padding_idx = 0
    ∧ (SharedRNN.init num_word_types shared_layer_size num_char_types word_dim char_dim
        hidden_dim dropout num_layers recurrent_unit winit cinit).wemb.weight 0 j1 = 0
    ∧ (SharedRNN.init num_word_types shared_layer_size num_char_types word_dim char_dim
        hidden_dim dropout num_layers recurrent_unit winit cinit).cemb.weight 0 j2 = 0
    ∧ (SharedRNN.init num_word_types shared_layer_size num_char_types word_dim char_dim
        hidden_dim dropout num_layers recurrent_unit winit cinit).charRNN.cemb.padding_idx
      = 0
    ∧ (SharedBiRNN.init num_word_types2 num_char_types2 num_layers2 recurrent_unit2
        winit2 cinit2).1.Pad_ind = 0
    ∧ (SharedBiRNN.init num_word_types2 num_char_types2 num_layers2 recurrent_unit2
        winit2 cinit2).1.wemb.padding_idx = 0
    ∧ (SharedBiRNN.init num_word_types2 num_char_types2 num_layers2 recurrent_unit2
        winit2 cinit2).1.cemb.padding_idx = 0
    ∧ (SharedBiRNN.init num_word_types2 num_char_types2 num_layers2 recurrent_unit2
        winit2 cinit2).1.wemb.weight 0 j3 = 0
    ∧ (SharedBiRNN.init num_word_types2 num_char_types2 num_layers2 recurrent_unit2
        winit2 cinit2).1.cemb.weight 0 j4 = 0 :=
  ⟨rfl, rfl, rfl, rfl, rfl, rfl, rfl, rfl, rfl, rfl, rfl⟩

/-- C5 (amended): when the recurrent unit of `CharRNN` is an LSTM
(`recurrent_unit` other than "gru"), `CharRNN.forward` realises the
standard pack/pad/unpack pattern: on every well-formed batch of padded
character sequences with length list `cl` it returns the concatenated
final hidden states of both directions of the last layer, a tensor of
shape `(B, 2 * embedding_dim)`.  (With the default GRU unit the forward
pass raises instead; see the counterexample theorem.) -/
theorem charRNN_forward_lstm_pack_pattern
    (cemb : Embedding) (nl : Nat) (ru : String) (pc : Tensor) (cl : List Nat) (L : Nat)
    (hru : (ru == "gru") = false) (hnl : 0 < nl)
    (hshape : pc.shape = [cl.length, L]) (hne : cl ≠ [])
    (hall : ∀ x ∈ cl, 1 ≤ x ∧ x ≤ L) :
    CharRNN.forward (CharRNN.init cemb nl ru) pc cl
      = .ok ⟨[cl.length, 2 * cemb.embedding_dim]⟩ := by
  have hB : 0 < cl.length := List.length_pos.mpr hne
  have hinitb : (CharRNN.init cemb nl ru).birnn
      = nnLSTM cemb.embedding_dim cemb.embedding_dim nl true := by
    simp [CharRNN.init, hru]
  have hcall : (CharRNN.init cemb nl ru).cemb.call pc
      = ⟨[cl.length, L, cemb.embedding_dim]⟩ := by
    simp [CharRNN.init, Embedding.call, hshape]
  unfold CharRNN.forward
  rw [hcall, pack_ok rfl hne hall, except_bind_ok, hinitb,
    callPacked_lstm cemb.embedding_dim cemb.embedding_dim nl ⟨cl, cemb.embedding_dim⟩ rfl,
    except_bind_ok]
  simp only [unpackPair, except_bind_ok, asTensor, nnLSTM]
  rw [view_to_layers, except_bind_ok, index_neg_one _ _ hnl, except_bind_ok]
  rw [show Tensor.transpose ⟨[2, cl.length, cemb.embedding_dim]⟩ 0 1
      = .ok ⟨[cl.length, 2, cemb.embedding_dim]⟩ from rfl, except_bind_ok]
  rw [show (⟨[cl.length, 2, cemb.embedding_dim]⟩ : Tensor).contiguous
      = ⟨[cl.length, 2, cemb.embedding_dim]⟩ from rfl]
  rw [view_flatten2 _ _ hB, except_bind_ok]

/-- Witness for the amended C5 at a concrete LSTM module and a concrete
well-formed batch whose lengths are not sorted in decreasing order. -/
theorem charRNN_forward_lstm_pack_pattern_witness :
    (("lstm" == "gru") = false)
    ∧ 0 < 1
    ∧ (⟨[2, 3]⟩ : Tensor).shape = [([1, 3] : List Nat).length, 3]
    ∧ ([1, 3] : List Nat) ≠ []
    ∧ (∀ x ∈ ([1, 3] : List Nat), 1 ≤ x ∧ x ≤ 3)
    ∧ CharRNN.forward (CharRNN.init (nnEmbedding 6 2 0 (fun _ _ => 1)) 1 "lstm")
        ⟨[2, 3]⟩ [1, 3]
      = .ok ⟨[([1, 3] : List Nat).length,
              2 * (nnEmbedding 6 2 0 (fun _ _ => 1)).embedding_dim]⟩ :=
  ⟨by decide, by decide, by decide, by decide, by decide,
    charRNN_forward_lstm_pack_pattern (nnEmbedding 6 2 0 (fun _ _ => 1)) 1 "lstm"
      ⟨[2, 3]⟩ [1, 3] 3 (by decide) (by decide) (by decide) (by decide) (by decide)⟩

/-- Counterexample to C5 as stated: with the default recurrent unit
("gru", the one `SharedRNN` uses), `CharRNN.forward` does not return the
`(B, 2 * embedding_dim)` tensor on a well-formed batch — it raises (the
mis-destructured GRU hidden state makes the later `view` call fail). -/
theorem charRNN_forward_default_gru_counterexample :
    CharRNN.forward (CharRNN.init (nnEmbedding 7 3 0 (fun _ _ => 0)) 1 "gru")
        ⟨[2, 5]⟩ [4, 2]
      = .error (.runtimeError "shape is invalid for input size") := rfl

/-- C8: with `recurrent_unit = "gru"` (the default), `CharRNN.forward`
raises on every input: the code destructures the second result of the GRU
as a pair `(final_h, _)` as if it were an LSTM (hidden, cell) tuple; with
one layer the (2, B, d) hidden tensor unpacks into its two direction
slices and the subsequent `view(num_layers, 2, B, d)` fails, with more
layers the unpacking itself fails, and a malformed batch already fails at
`pack_padded_sequence`. -/
theorem charRNN_forward_gru_always_raises (cemb : Embedding) (nl : Nat)
    (pc : Tensor) (cl : List Nat)
    (hd : 0 < cemb.embedding_dim) (hnl : 0 < nl) :
    isErr (CharRNN.forward (CharRNN.init cemb nl "gru") pc cl) = true := by
  have hbirnn : (CharRNN.init cemb nl "gru").birnn
      = nnGRU cemb.embedding_dim cemb.embedding_dim nl true := rfl
  obtain ⟨s⟩ := pc
  rcases s with _ | ⟨a, _ | ⟨b, _ | ⟨c3, t⟩⟩⟩
  · rfl
  · rfl
  · unfold CharRNN.forward
    rcases hp : pack_padded_sequence
        ((CharRNN.init cemb nl "gru").cemb.call ⟨[a, b]⟩) cl true false with e | p
    · rfl
    · obtain ⟨d0, d1, d2, hsh, hpl, hpf, hlen⟩ := pack_ok_inv hp
      have hsh2 : ((CharRNN.init cemb nl "gru").cemb.call ⟨[a, b]⟩).shape
          = [a, b, cemb.embedding_dim] := rfl
      rw [hsh2] at hsh
      simp only [List.cons.injEq, and_true] at hsh
      obtain ⟨rfl, rfl, rfl⟩ := hsh
      obtain ⟨plen, pfeat⟩ := p
      simp only at hpl hpf
      subst hpl
      subst hpf
      simp only [except_bind_ok, hbirnn,
        callPacked_gru cemb.embedding_dim cemb.embedding_dim nl ⟨plen, cemb.embedding_dim⟩ rfl,
        unpackPair, asTensor]
      by_cases hone : nl = 1
      · subst hone
        rw [if_pos (by norm_num : (1 * 2 : Nat) = 2)]
        simp only [except_bind_ok, asTensor, nnGRU,
          view_one_layer_err plen.length cemb.embedding_dim hlen hd, except_bind_err]
        rfl
      · rw [if_neg (by omega : ¬ (nl * 2 = 2)), except_bind_err]
        rfl
  · unfold CharRNN.forward
    rcases hteq : t ++ [cemb.embedding_dim] with _ | ⟨x, xs⟩
    · exact absurd hteq (by simp)
    · have hcall : (CharRNN.init cemb nl "gru").cemb.call ⟨a :: b :: c3 :: t⟩
          = ⟨a :: b :: c3 :: x :: xs⟩ := by
        simp [CharRNN.init, Embedding.call, List.cons_append, hteq]
      rw [hcall]
      rfl

/-- Witness for C8 at a concrete GRU module and a concrete well-formed
input. -/
theorem charRNN_forward_gru_always_raises_witness :
    0 < (nnEmbedding 5 3 0 (fun _ _ => 1)).embedding_dim
    ∧ 0 < 1
    ∧ isErr (CharRNN.forward (CharRNN.init (nnEmbedding 5 3 0 (fun _ _ => 1)) 1 "gru")
        ⟨[2, 4]⟩ [3, 2]) = true :=
  ⟨by decide, by decide,
    charRNN_forward_gru_always_raises (nnEmbedding 5 3 0 (fun _ _ => 1)) 1
      ⟨[2, 4]⟩ [3, 2] (by decide) (by decide)⟩

end MTL
